import Mathlib

/-!
Shallow embedding of the core of the `topology_connect` repository
(`lib/topology_connect/shell.py` and `lib/topology_connect/nodes/openswitch.py`)
together with theorems settling the specification claims about it.

The interactive channel is modelled by explicit event scripts: each blocking
`spawn.expect` call of the Python code consumes one scripted event (which
pattern matched, or a timeout), and each send over the channel is recorded as
an element of an effect trace.  Python exceptions are modelled by an explicit
error value; an undefined Python name is resolved against the list of names
actually bound at module level in the corresponding source file.
-/

set_option autoImplicit false

namespace TopologyConnect

/-! ### String helpers

`listStarts pat s` holds when `s` begins with `pat`; `containsSub pat s`
is the Python `pat in s` substring test.  `afterLastChar c s` is the Python
slice `s[s.rfind(c) + 1:]`: the part of `s` after the last occurrence of the
character `c`, or all of `s` when `c` does not occur (rfind returns -1).
-/

def listStarts : List Char → List Char → Bool
  | [], _ => true
  | _ :: _, [] => false
  | p :: ps, c :: cs => p = c && listStarts ps cs

def listContainsSub (pat : List Char) : List Char → Bool
  | [] => listStarts pat []
  | c :: cs => listStarts pat (c :: cs) || listContainsSub pat cs

def containsSub (pat s : String) : Bool :=
  listContainsSub pat.toList s.toList

def afterLastChar (c : Char) (s : String) : String :=
  ((s.toList.reverse.takeWhile (fun x => x ≠ c)).reverse).asString

/-- The trailing fragment used by the download stall heuristic:
Python `message[message.rfind(chr(13)) + 1:]` in `OpenswitchNode._burn_image`. -/
def trailingFrag (s : String) : String :=
  afterLastChar '\r' s

/-! ### Python name resolution

Names bound at module level in each source file (imports, classes, module
globals), plus the Python builtins the files could reach.  Used to model
evaluation of a bare name: a name in neither list raises `NameError`.
-/

def pyBuiltins : List String :=
  ["print", "len", "format", "int", "str", "super", "getattr", "setattr",
   "range", "sorted", "open", "Exception", "AssertionError", "NameError",
   "TypeError", "ValueError"]

def openswitchModuleNames : List String :=
  ["unicode_literals", "absolute_import", "print_function", "division",
   "getLogger", "sleep", "call", "pytest", "CommonConnectNode",
   "OpenswitchVtyShell", "SshBashShell", "OpenswitchSerialShell",
   "log", "image_load_status", "declare_image_load_status",
   "OpenswitchNode", "__all__"]

def openswitchDefined (n : String) : Bool :=
  n ∈ openswitchModuleNames || n ∈ pyBuiltins

def shellModuleNames : List String :=
  ["unicode_literals", "absolute_import", "print_function", "division",
   "getuid", "getpwuid", "getLogger", "isabs", "join", "expanduser",
   "call", "sleep", "PExpectShell", "PExpectBashShell", "log",
   "ConnectPExpectShell", "ConnectPExpectBashShell", "SshMixin",
   "TelnetMixin", "SshShell", "TelnetShell", "SshBashShell",
   "TelnetBashShell", "OpenswitchVtyShell", "OpenswitchSerialShell",
   "__all__"]

def shellDefined (n : String) : Bool :=
  n ∈ shellModuleNames || n ∈ pyBuiltins

/-! ### Handshake engine: `ConnectPExpectShell._setup_shell` (shell.py 53-101)

Each `spawn.expect([...])` consumes one `ExpectEv`: `matched i` is the index
pexpect returned, `timedOut` is a `pexpect.TIMEOUT` (which propagates and
aborts the connect attempt, modelled by `none`).  Running out of scripted
events likewise yields `none` (the real call would block and time out).
The produced value is the list of send actions in order; `sendline` carries
an `Option String` because the source passes `self._connect_password`, which
may itself be `None`.
-/

inductive ExpectEv where
  | matched (i : Nat)
  | timedOut
deriving DecidableEq, Repr

inductive HsAction where
  | sendline (s : Option String)
  | send (s : String)
deriving DecidableEq, Repr

def crlf : String := "\n\r"

/-- Step 3 of `_setup_shell`: `_post_setup_shell` (a no-op in the base class)
followed by the optional initial command (expect initial prompt, send it). -/
def step3 (initial_command : Option String) (evs : List ExpectEv) :
    Option (List HsAction) :=
  match initial_command with
  | none => some []
  | some cmd =>
    match evs with
    | ExpectEv.matched _ :: _ => some [HsAction.sendline (some cmd)]
    | _ => none

/-- Step 2 of `_setup_shell`: performed whenever a password was declared;
races `[password_match, initial_prompt]`; index 0 sends the password,
any other index sends a bare newline. -/
def step2 (password initial_command : Option String) (evs : List ExpectEv) :
    Option (List HsAction) :=
  match password with
  | none => step3 initial_command evs
  | some _ =>
    match evs with
    | ExpectEv.matched i :: rest =>
      let act := if i = 0 then HsAction.sendline password else HsAction.send crlf
      (step3 initial_command rest).map (fun t => act :: t)
    | _ => none

/-- `ConnectPExpectShell._setup_shell`: step 1 (when a user was declared)
races `[user_match, initial_prompt, password_match]`; index 0 sends the user,
index 1 sends a bare newline, index 2 sends the password, any other index
falls through silently; then step 2 and step 3 run. -/
def setup_shell (user password initial_command : Option String)
    (evs : List ExpectEv) : Option (List HsAction) :=
  match user with
  | none => step2 password initial_command evs
  | some _ =>
    match evs with
    | ExpectEv.matched i :: rest =>
      let acts : List HsAction :=
        if i = 0 then [HsAction.sendline user]
        else if i = 1 then [HsAction.send crlf]
        else if i = 2 then [HsAction.sendline password]
        else []
      (step2 password initial_command rest).map (fun t => acts ++ t)
    | _ => none

/-! ### Transport command builders (shell.py 210-232 and 259-272) -/

/-- Python truthiness of an optional string: `None` and the empty string are
falsy, everything else truthy (`if self._identity_file:`). -/
def pyTruthyStr : Option String → Bool
  | none => false
  | some s => s ≠ ""

/-- The option-flag portion of the SSH command: empty when no options are
configured, otherwise one `-o` per option (`if self._options: ...join`). -/
def sshOptFlags (options : List String) : String :=
  if options = [] then "" else " -o " ++ String.intercalate " -o " options

/-- `SshMixin._get_connect_command`: builds the ssh invocation from the
connection parameters.  The `-i` flag is prepended only when the identity
file is truthy; the `-o` flags depend only on `options`. -/
def ssh_get_connect_command (user hostname : String) (port : Nat)
    (options : List String) (identity_file : Option String) : String :=
  let opts := sshOptFlags options
  let opts :=
    if pyTruthyStr identity_file then
      " -i " ++ identity_file.getD "" ++ opts
    else opts
  "ssh " ++ user ++ "@" ++ hostname ++ " -p " ++ toString port ++ opts

/-- Modelled from the spec claim wording for comparison: the SSH form
"includes the identity-file flag and the option flags when an identity file
is configured and omits both when it is not". -/
def ssh_connect_command_claimed (user hostname : String) (port : Nat)
    (options : List String) (identity_file : Option String) : String :=
  let opts :=
    if pyTruthyStr identity_file then
      " -i " ++ identity_file.getD "" ++ sshOptFlags options
    else ""
  "ssh " ++ user ++ "@" ++ hostname ++ " -p " ++ toString port ++ opts

/-- `TelnetMixin._get_connect_command`. -/
def telnet_get_connect_command (hostname : String) (port : Nat) : String :=
  "telnet " ++ hostname ++ " " ++ toString port

/-! ### Download wait loop (openswitch.py 250-272)

The loop body performs one `spawn.expect(onie_prompt, timeout)`; a scripted
`DlEvent.matched msg` is a successful match with `spawn.before = msg`, a
`DlEvent.timedOut msg` is a timeout with `spawn.before = msg`.  `out` is the
trailing fragment recorded at the previous timeout, initially the empty
string.  `DlResult.waiting` reports an exhausted script: the real loop would
still be blocked waiting, having neither succeeded nor stalled.
-/

inductive DlEvent where
  | matched (msg : String)
  | timedOut (msg : String)
deriving DecidableEq, Repr

inductive DlResult where
  | success (msg : String)
  | stalled
  | waiting (out : String)
deriving DecidableEq, Repr

def downloadLoop (out : String) : List DlEvent → DlResult
  | [] => DlResult.waiting out
  | DlEvent.matched msg :: _ => DlResult.success msg
  | DlEvent.timedOut msg :: rest =>
    let prev_out := trailingFrag msg
    if prev_out = out then DlResult.stalled
    else downloadLoop prev_out rest

/-! ### Startup-config retry loop: `OpenswitchNode._create_startup_config`
(openswitch.py 311-323)

`outs i` is the output of `show startup-config` at iteration `i`.  The
source loop is `while seconds < 15`, incrementing `seconds` and sleeping one
second after each failed check; it is rendered structurally with fuel
`15 - seconds`.  The result is the final value of `seconds` (equal to the
number of one-second sleeps performed) paired with whether a startup
configuration was observed; there is no error case because the source
raises nothing on exhaustion.
-/

def cscMarker : String := "No saved configuration exists"

def cscGo (outs : Nat → String) : Nat → Nat → Nat × Bool
  | 0, seconds => (seconds, false)
  | fuel + 1, seconds =>
    if containsSub cscMarker (outs seconds) then cscGo outs fuel (seconds + 1)
    else (seconds, true)

def create_startup_config (outs : Nat → String) : Nat × Bool :=
  cscGo outs 15 0

/-! ### Serial disconnect: `OpenswitchSerialShell` (shell.py 358-371)

`disconnect` checks liveness, runs `_close_serial_connection`, then closes
the channel.  `_close_serial_connection` iterates over the configured
closing commands and evaluates the bare name `spawn`, which is bound nowhere
in `shell.py`; the first loop iteration therefore raises `NameError`.
Likewise `AlreadyDisconnectedError` is bound nowhere in `shell.py`, so the
dead-channel branch raises `NameError` while trying to raise it.
-/

inductive SerialEffect where
  | sendCmd (s : String)
  | closeChannel
deriving DecidableEq, Repr

inductive PyError where
  | nameError (n : String)
  | connectFailed
  | timeout (stage : String)
  | stalled
  | nonZeroExit
  | missingMarker
  | rebootCmdFailed
  | blocked
deriving DecidableEq, Repr

def close_serial_connection (closing_commands : List String) :
    List SerialEffect × Option PyError :=
  match closing_commands with
  | [] => ([], none)
  | _ :: _ =>
    if shellDefined "spawn" then
      (closing_commands.map SerialEffect.sendCmd, none)
    else ([], some (PyError.nameError "spawn"))

def serial_disconnect (alive : Bool) (closing_commands : List String) :
    List SerialEffect × Option PyError :=
  if alive then
    match close_serial_connection closing_commands with
    | (effs, some e) => (effs, some e)
    | (effs, none) => (effs ++ [SerialEffect.closeChannel], none)
  else
    ([], some (PyError.nameError "AlreadyDisconnectedError"))

/-! ### Firmware burn workflow: `OpenswitchNode._burn_image`
(openswitch.py 182-297)

The device and the external world are scripted by a `Resp` record with one
field per blocking interaction, in the order the source performs them.
Sends over the serial channel and vtysh commands are recorded in an effect
trace; `connectAttempt` marks each `serial.connect()` call and `rebootCall`
the external `subprocess.call` of the configured reboot command.
-/

inductive Effect where
  | connectAttempt
  | rebootCall (cmd : String)
  | vtysh (c : String)
  | serialCmd (c : String)
  | sendRaw (s : String)
  | sendPassword
  | createStartup
deriving DecidableEq, Repr

abbrev Trace := List Effect

structure ImageAttrs where
  path : String
  serverIP : String
  serverUser : String
  serverPassword : String
deriving DecidableEq, Repr

structure Resp where
  /-- first `serial.connect()` succeeds -/
  connect1 : Bool
  /-- return code of `subprocess.call(reboot_command)` -/
  callRet : Int
  /-- second `serial.connect()` succeeds -/
  connect2 : Bool
  eraseCmdOk : Bool
  eraseConfirmOk : Bool
  /-- `serial('reboot')` reaches the grub menu prompt -/
  grubOk : Bool
  down1Ok : Bool
  down2Ok : Bool
  down3Ok : Bool
  /-- newline reaches the ONIE boot menu -/
  onieSelOk : Bool
  /-- arrow-down selects the ONIE rescue entry -/
  rescueSelOk : Bool
  /-- newline reaches the activate-console prompt -/
  activateOk : Bool
  /-- newline reaches the ONIE rescue shell prompt -/
  onieShellOk : Bool
  /-- the scp command reaches the host-key confirmation prompt -/
  scpConfirmOk : Bool
  /-- answering y reaches the password prompt -/
  pwPromptOk : Bool
  /-- scripted events of the download wait loop -/
  dlEvents : List DlEvent
  echoOk : Bool
  /-- output of `echo $?` after the download -/
  echoRc : String
  installerWaitOk : Bool
  /-- output of running the installer -/
  installerOut : String
  /-- `serial('')` reaches the grub menu after the install -/
  grub2Ok : Bool
  /-- newline reaches the login prompt -/
  loginOk : Bool
deriving DecidableEq, Repr

/-- One send-then-wait interaction: the sends happen, then the wait either
matches (continue with `k`) or times out (the exception aborts the stage). -/
def seqStep (effs : Trace) (ok : Bool) (stage : String)
    (k : Trace × Option PyError) : Trace × Option PyError :=
  if ok then (effs ++ k.1, k.2) else (effs, some (PyError.timeout stage))

/-- `OpenswitchNode._reboot_switch` (openswitch.py 325-330): with no
configured command it is a no-op; with one, the body first evaluates the
bare name `printf`, which is bound nowhere in `openswitch.py`, so `NameError`
is raised before `subprocess.call` runs.  The branch under a defined
`printf` keeps the rest of the body for reference but is unreachable. -/
def reboot_switch (reboot_command : Option String) (callRet : Int) :
    Trace × Option PyError :=
  match reboot_command with
  | none => ([], none)
  | some cmd =>
    if openswitchDefined "printf" then
      if callRet = 0 then ([Effect.rebootCall cmd], none)
      else ([Effect.rebootCall cmd], some PyError.rebootCmdFailed)
    else ([], some (PyError.nameError "printf"))

/-- Stage 1 (openswitch.py 204-208): `try: serial.connect() except:
self._reboot_switch(); serial.connect()`. -/
def stage1 (reboot_command : Option String) (resp : Resp) :
    Trace × Option PyError :=
  if resp.connect1 then ([Effect.connectAttempt], none)
  else
    match reboot_switch reboot_command resp.callRet with
    | (reffs, some e) => (Effect.connectAttempt :: reffs, some e)
    | (reffs, none) =>
      if resp.connect2 then
        (Effect.connectAttempt :: reffs ++ [Effect.connectAttempt], none)
      else
        (Effect.connectAttempt :: reffs ++ [Effect.connectAttempt],
         some PyError.connectFailed)

def marker : String := "Installation finished. No error reported."

def esc : String := "\x1b[B"

/-- The scp invocation built at openswitch.py 245-246. -/
def scpCommand (ia : ImageAttrs) : String :=
  "scp " ++ ia.serverUser ++ "@" ++ ia.serverIP ++ ":" ++ ia.path ++ " ./"

/-- `self._image_path[self._image_path.rfind(chr(47)) + 1:]`. -/
def fileName (path : String) : String :=
  afterLastChar '/' path

/-- Stages 7-10 (openswitch.py 273-295): verify the download exit status,
run the installer and check the success marker, reboot to production, and
create the startup config. -/
def stage7to10 (ia : ImageAttrs) (resp : Resp) : Trace × Option PyError :=
  seqStep [Effect.serialCmd "echo $?"] resp.echoOk "verify-download" (
    if resp.echoRc = "0" then
      seqStep [Effect.serialCmd ("sh " ++ fileName ia.path)]
          resp.installerWaitOk "installer" (
        if containsSub marker resp.installerOut then
          seqStep [Effect.serialCmd ""] resp.grub2Ok "grub-after-install" (
            seqStep [Effect.sendRaw crlf] resp.loginOk "login"
              ([Effect.createStartup], none))
        else ([], some PyError.missingMarker))
    else ([], some PyError.nonZeroExit))

/-- Stage 6 tail (openswitch.py 249-272): send the server password into the
channel, then run the stall-detecting wait loop with an initially empty
window. -/
def downloadAndAfter (ia : ImageAttrs) (resp : Resp) : Trace × Option PyError :=
  match downloadLoop "" resp.dlEvents with
  | DlResult.stalled => ([Effect.sendPassword], some PyError.stalled)
  | DlResult.waiting _ => ([Effect.sendPassword], some PyError.blocked)
  | DlResult.success _ =>
    let k := stage7to10 ia resp
    (Effect.sendPassword :: k.1, k.2)

/-- Stages 2-10 (openswitch.py 210-295) in source order. -/
def stages2to10 (ia : ImageAttrs) (resp : Resp) : Trace × Option PyError :=
  seqStep [Effect.vtysh "erase startup-config"] resp.eraseCmdOk "erase" (
  seqStep [Effect.vtysh "y"] resp.eraseConfirmOk "erase-confirm" (
  seqStep [Effect.serialCmd "reboot"] resp.grubOk "grub" (
  seqStep [Effect.sendRaw esc] resp.down1Ok "boot-menu-1" (
  seqStep [Effect.sendRaw esc] resp.down2Ok "boot-menu-2" (
  seqStep [Effect.sendRaw esc] resp.down3Ok "boot-menu-3" (
  seqStep [Effect.sendRaw crlf] resp.onieSelOk "onie-select" (
  seqStep [Effect.sendRaw esc] resp.rescueSelOk "rescue-select" (
  seqStep [Effect.sendRaw crlf] resp.activateOk "activate-console" (
  seqStep [Effect.sendRaw crlf] resp.onieShellOk "onie-shell" (
  seqStep [Effect.serialCmd (scpCommand ia)] resp.scpConfirmOk "scp-confirm" (
  seqStep [Effect.serialCmd "y"] resp.pwPromptOk "scp-password" (
  downloadAndAfter ia resp))))))))))))

/-- Stage pipeline after the registry guard: stage 1, then stages 2-10. -/
def burn_stages (ia : ImageAttrs) (reboot_command : Option String)
    (resp : Resp) : Trace × Option PyError :=
  match stage1 reboot_command resp with
  | (e1, some e) => (e1, some e)
  | (e1, none) =>
    let k := stages2to10 ia resp
    (e1 ++ k.1, k.2)

/-- `OpenswitchNode._burn_image` entry (openswitch.py 192-196 and onward):
return immediately when no image attributes are configured; skip entirely
when the IP is already in the module-global `image_load_status` registry;
otherwise append the IP to the registry before any stage runs and execute
the stage pipeline.  Result: (registry after the call, effect trace,
error if any). -/
def burn_image (registry : List String) (ip : String)
    (image_attrs : Option ImageAttrs) (reboot_command : Option String)
    (resp : Resp) : List String × Trace × Option PyError :=
  match image_attrs with
  | none => (registry, [], none)
  | some ia =>
    if ip ∈ registry then (registry, [], none)
    else (registry ++ [ip], burn_stages ia reboot_command resp)

/-! ### Concrete example inputs used by witnesses and counterexamples -/

def iaEx : ImageAttrs :=
  { path := "/images/ops.img", serverIP := "10.1.1.5",
    serverUser := "imguser", serverPassword := "imgpass" }

def respAllOk : Resp :=
  { connect1 := true, callRet := 0, connect2 := true,
    eraseCmdOk := true, eraseConfirmOk := true, grubOk := true,
    down1Ok := true, down2Ok := true, down3Ok := true,
    onieSelOk := true, rescueSelOk := true, activateOk := true,
    onieShellOk := true, scpConfirmOk := true, pwPromptOk := true,
    dlEvents := [DlEvent.matched "done"], echoOk := true, echoRc := "0",
    installerWaitOk := true,
    installerOut := "... Installation finished. No error reported.",
    grub2Ok := true, loginOk := true }

def respC3 : Resp :=
  { respAllOk with connect1 := false }

/-! ### Helper lemmas -/

theorem scpCommand_ne_empty (ia : ImageAttrs) : scpCommand ia ≠ "" := by
  intro h
  have h2 := congrArg String.length h
  simp [scpCommand, String.length_append] at h2
  exact absurd h2.1.1.1.1.1.1 (by decide)

theorem sh_installer_ne_empty (ia : ImageAttrs) :
    "sh " ++ fileName ia.path ≠ "" := by
  intro h
  have h2 := congrArg String.length h
  simp [String.length_append] at h2
  exact absurd h2.1 (by decide)

theorem downloadLoop_no_success (out : String) (evs : List DlEvent)
    (h : ∀ e ∈ evs, ∀ m, e ≠ DlEvent.matched m) :
    downloadLoop out evs = DlResult.stalled ∨
      ∃ w, downloadLoop out evs = DlResult.waiting w := by
  induction evs generalizing out with
  | nil => exact Or.inr ⟨out, rfl⟩
  | cons e tl ih =>
    cases e with
    | matched m => exact absurd rfl (h _ (List.mem_cons_self _ _) m)
    | timedOut m =>
      by_cases hc : trailingFrag m = out
      · left
        simp [downloadLoop, hc]
      · have hr := ih (trailingFrag m)
          (fun e he m' => h e (List.mem_cons_of_mem _ he) m')
        simpa [downloadLoop, hc] using hr

theorem cscGo_fst_le (outs : Nat → String) :
    ∀ fuel s, (cscGo outs fuel s).1 ≤ s + fuel := by
  intro fuel
  induction fuel with
  | zero => intro s; simp [cscGo]
  | succ n ih =>
    intro s
    by_cases hc : containsSub cscMarker (outs s) = true
    · have := ih (s + 1)
      simp only [cscGo, hc, if_true]
      omega
    · simp only [cscGo, Bool.not_eq_true] at hc ⊢
      rw [hc]
      simp

theorem cscGo_exhaust (outs : Nat → String) :
    ∀ fuel s, (∀ i, s ≤ i → i < s + fuel → containsSub cscMarker (outs i) = true) →
      cscGo outs fuel s = (s + fuel, false) := by
  intro fuel
  induction fuel with
  | zero => intro s _; simp [cscGo]
  | succ n ih =>
    intro s h
    have hs : containsSub cscMarker (outs s) = true := h s le_rfl (by omega)
    have hr := ih (s + 1) (fun i h1 h2 => h i (by omega) (by omega))
    have harith : s + 1 + n = s + (n + 1) := by omega
    simp only [cscGo, hs, if_true, hr, harith]

theorem cscGo_hit (outs : Nat → String) :
    ∀ fuel s j, j < fuel →
      (∀ i, s ≤ i → i < s + j → containsSub cscMarker (outs i) = true) →
      containsSub cscMarker (outs (s + j)) = false →
      cscGo outs fuel s = (s + j, true) := by
  intro fuel
  induction fuel with
  | zero => intro s j hj _ _; exact absurd hj (Nat.not_lt_zero j)
  | succ n ih =>
    intro s j hj hall hj0
    cases j with
    | zero =>
      simp only [Nat.add_zero] at hj0
      simp [cscGo, hj0]
    | succ k =>
      have hs : containsSub cscMarker (outs s) = true := hall s le_rfl (by omega)
      have harith : s + 1 + k = s + (k + 1) := by omega
      have hr := ih (s + 1) k (by omega)
        (fun i h1 h2 => hall i (by omega) (by omega))
        (by rw [harith]; exact hj0)
      simp only [cscGo, hs, if_true, hr, harith]

/-! ### Claim theorems -/

/-- C1: during the image-download stage, each wait timeout compares the
trailing output fragment (text after the last carriage return) with the
fragment recorded at the previous timeout (the loop window `out`): identical
fragments fail with the stalled-download error, differing fragments are
recorded and the wait resumes; the loop has no overall timeout and
terminates only on a rescue-prompt match or a detected stall (a script with
no match never yields success). -/
theorem download_stall_detection (out msg : String) (rest : List DlEvent) :
    downloadLoop out (DlEvent.matched msg :: rest) = DlResult.success msg
  ∧ (trailingFrag msg = out →
      downloadLoop out (DlEvent.timedOut msg :: rest) = DlResult.stalled)
  ∧ (trailingFrag msg ≠ out →
      downloadLoop out (DlEvent.timedOut msg :: rest)
        = downloadLoop (trailingFrag msg) rest)
  ∧ (∀ evs : List DlEvent, (∀ e ∈ evs, ∀ m, e ≠ DlEvent.matched m) →
      downloadLoop out evs = DlResult.stalled ∨
        ∃ w, downloadLoop out evs = DlResult.waiting w) := by
  refine ⟨rfl, fun h => by simp [downloadLoop, h],
    fun h => by simp [downloadLoop, h],
    fun evs h => downloadLoop_no_success out evs h⟩

/-- C1 witness: concrete stall, concrete continuation, concrete no-match run. -/
theorem download_stall_detection_witness :
    downloadLoop "frag" [DlEvent.timedOut "abc\rfrag"] = DlResult.stalled
  ∧ downloadLoop "old" [DlEvent.timedOut "abc\rnew"] = downloadLoop "new" []
  ∧ (downloadLoop "w" [DlEvent.timedOut "zz\rw1"] = DlResult.stalled ∨
      ∃ w, downloadLoop "w" [DlEvent.timedOut "zz\rw1"] = DlResult.waiting w) :=
  ⟨(download_stall_detection "frag" "abc\rfrag" []).2.1 (by decide),
   (download_stall_detection "old" "abc\rnew" []).2.2.1 (by decide),
   (download_stall_detection "w" "zz\rw1" []).2.2.2 [DlEvent.timedOut "zz\rw1"]
     (by intro e he m; simp at he; subst he; simp)⟩

/-- C9: the stall-detection window starts as the empty string, so on the
very first timeout of the download wait loop a trailing fragment that is
empty (output ending in a carriage return, or no output) fails with the
stalled-download error immediately, with only a single timeout observed. -/
theorem first_timeout_empty_window_stalls (msg : String) (rest : List DlEvent)
    (h : trailingFrag msg = "") :
    downloadLoop "" (DlEvent.timedOut msg :: rest) = DlResult.stalled := by
  simp [downloadLoop, h]

/-- C9 witness: output ending in a carriage return stalls at once. -/
theorem first_timeout_empty_window_stalls_witness :
    downloadLoop "" [DlEvent.timedOut "abc\r"] = DlResult.stalled :=
  first_timeout_empty_window_stalls "abc\r" [] (by decide)

/-- C2: the burn-once registry is consulted before any stage executes and a
present identity skips the whole workflow with no effects; when absent the
identity is appended before stage 1 for every device response, including
every failing one, so no failure removes it; consequently a second burn of
the same identity, with any response script, is a no-op. -/
theorem burn_once_registry (registry : List String) (ip : String)
    (ia : ImageAttrs) (rc : Option String) (resp resp2 : Resp) :
    (ip ∈ registry → burn_image registry ip (some ia) rc resp = (registry, [], none))
  ∧ (ip ∉ registry →
      (burn_image registry ip (some ia) rc resp).1 = registry ++ [ip])
  ∧ burn_image (burn_image registry ip (some ia) rc resp).1 ip (some ia) rc resp2
      = ((burn_image registry ip (some ia) rc resp).1, [], none) := by
  refine ⟨fun h => by simp [burn_image, h], fun h => by simp [burn_image, h], ?_⟩
  by_cases h : ip ∈ registry
  · simp [burn_image, h]
  · simp [burn_image, h, List.mem_append]

/-- C2 witness: a present identity skips; an absent one is appended. -/
theorem burn_once_registry_witness :
    burn_image ["10.0.0.1"] "10.0.0.1" (some iaEx) none respAllOk
      = (["10.0.0.1"], [], none)
  ∧ (burn_image [] "10.0.0.1" (some iaEx) none respAllOk).1 = [] ++ ["10.0.0.1"] :=
  ⟨(burn_once_registry ["10.0.0.1"] "10.0.0.1" iaEx none respAllOk respAllOk).1
      (by decide),
   (burn_once_registry [] "10.0.0.1" iaEx none respAllOk respAllOk).2.1
      (by decide)⟩

/-- C3: evaluation at the failing input.  With a configured reboot command
and a failing first serial handshake, the except handler evaluates the
undefined name `printf` inside `_reboot_switch` and raises `NameError`: the
trace shows exactly one connect attempt, no `rebootCall`, and no retry, so
the hardware reboot command is never invoked and the handshake is never
retried, contradicting the claimed reboot-once-then-retry-once behaviour. -/
theorem reboot_retry_printf_bug :
    burn_image [] "10.0.0.1" (some iaEx) (some "/usr/sbin/reboot-sw") respC3
      = (["10.0.0.1"], [Effect.connectAttempt],
         some (PyError.nameError "printf"))
  ∧ openswitchDefined "printf" = false := by
  refine ⟨by decide, by decide⟩

/-- C4 counterexample: when the password prompt matches first in the step-1
race, the engine does not proceed silently into the step-2 race — it sends
the declared password immediately (index-2 branch of `setup_shell`), so the
run differs from the run that starts directly at step 2. -/
theorem step1_password_branch_cex :
    setup_shell (some "admin") (some "pw") none
        [ExpectEv.matched 2, ExpectEv.matched 1]
      = some [HsAction.sendline (some "pw"), HsAction.send crlf]
  ∧ setup_shell (some "admin") (some "pw") none
        [ExpectEv.matched 2, ExpectEv.matched 1]
      ≠ setup_shell none (some "pw") none [ExpectEv.matched 1] := by
  refine ⟨rfl, by decide⟩

/-- C4 amended: when the password prompt matches first in the step-1 race,
the engine immediately sends the declared password and then proceeds into
the step-2 password race (whose own password branch would send it again). -/
theorem step1_password_branch_amended (u p : String) (ic : Option String)
    (evs : List ExpectEv) :
    setup_shell (some u) (some p) ic (ExpectEv.matched 2 :: evs)
      = (setup_shell none (some p) ic evs).map
          (fun t => HsAction.sendline (some p) :: t) := rfl

/-- C5 counterexample: after an initial-shell-prompt match in step 1 with a
declared password, the engine does not skip the step-2 race: a run providing
no further events fails instead of completing with the single newline, and a
run where the initial prompt appears again sends a second newline from the
step-2 race. -/
theorem step1_initial_prompt_cex :
    setup_shell (some "admin") (some "pw") none [ExpectEv.matched 1] = none
  ∧ setup_shell (some "admin") (some "pw") none [ExpectEv.matched 1]
      ≠ some [HsAction.send crlf]
  ∧ setup_shell (some "admin") (some "pw") none
        [ExpectEv.matched 1, ExpectEv.matched 1]
      = some [HsAction.send crlf, HsAction.send crlf]
  ∧ setup_shell (some "admin") none none [ExpectEv.matched 1]
      = some [HsAction.send crlf] := by
  refine ⟨rfl, by decide, rfl, rfl⟩

/-- C5 amended: after an initial-shell-prompt match in step 1 the engine
sends a bare newline and then still performs the step-2 password race when a
password was declared; step 2 is skipped only when no password was
declared. -/
theorem step1_initial_prompt_amended (u p : String) (ic : Option String)
    (evs : List ExpectEv) :
    setup_shell (some u) (some p) ic (ExpectEv.matched 1 :: evs)
      = (setup_shell none (some p) ic evs).map
          (fun t => HsAction.send crlf :: t) := rfl

/-- C6: when the installer output lacks the literal success marker the
workflow fails with the missing-marker error, the registry keeps the
identity, and the trace ends exactly at the installer command — it contains
no stage-9 reboot-to-production interaction (no `serialCmd ""` grub wait,
no login newline after it) and no startup-config stage. -/
theorem installer_marker_failfast (registry : List String) (ip : String)
    (ia : ImageAttrs) (rc : Option String) (dl : List DlEvent)
    (m instOut : String)
    (hip : ip ∉ registry)
    (hdl : downloadLoop "" dl = DlResult.success m)
    (hmk : containsSub marker instOut = false) :
    burn_image registry ip (some ia) rc
        { respAllOk with dlEvents := dl, installerOut := instOut }
      = (registry ++ [ip],
         [Effect.connectAttempt,
          Effect.vtysh "erase startup-config", Effect.vtysh "y",
          Effect.serialCmd "reboot",
          Effect.sendRaw esc, Effect.sendRaw esc, Effect.sendRaw esc,
          Effect.sendRaw crlf, Effect.sendRaw esc, Effect.sendRaw crlf,
          Effect.sendRaw crlf,
          Effect.serialCmd (scpCommand ia), Effect.serialCmd "y",
          Effect.sendPassword,
          Effect.serialCmd "echo $?",
          Effect.serialCmd ("sh " ++ fileName ia.path)],
         some PyError.missingMarker)
  ∧ Effect.createStartup ∉
      (burn_image registry ip (some ia) rc
        { respAllOk with dlEvents := dl, installerOut := instOut }).2.1
  ∧ Effect.serialCmd "" ∉
      (burn_image registry ip (some ia) rc
        { respAllOk with dlEvents := dl, installerOut := instOut }).2.1 := by
  have htr : burn_image registry ip (some ia) rc
      { respAllOk with dlEvents := dl, installerOut := instOut }
    = (registry ++ [ip],
       [Effect.connectAttempt,
        Effect.vtysh "erase startup-config", Effect.vtysh "y",
        Effect.serialCmd "reboot",
        Effect.sendRaw esc, Effect.sendRaw esc, Effect.sendRaw esc,
        Effect.sendRaw crlf, Effect.sendRaw esc, Effect.sendRaw crlf,
        Effect.sendRaw crlf,
        Effect.serialCmd (scpCommand ia), Effect.serialCmd "y",
        Effect.sendPassword,
        Effect.serialCmd "echo $?",
        Effect.serialCmd ("sh " ++ fileName ia.path)],
       some PyError.missingMarker) := by
    simp [burn_image, hip, burn_stages, stage1, stages2to10, seqStep,
      downloadAndAfter, hdl, stage7to10, hmk, respAllOk]
  refine ⟨htr, ?_, ?_⟩
  · rw [htr]
    simp
  · rw [htr]
    simp [Ne.symm (scpCommand_ne_empty ia), Ne.symm (sh_installer_ne_empty ia)]

/-- C6 witness: a concrete run whose installer output lacks the marker. -/
theorem installer_marker_failfast_witness :
    (burn_image [] "10.0.0.1" (some iaEx) none
        { respAllOk with dlEvents := [DlEvent.matched "done"],
                         installerOut := "installer crashed" }).2.2
      = some PyError.missingMarker := by
  have h := installer_marker_failfast [] "10.0.0.1" iaEx none
    [DlEvent.matched "done"] "done" "installer crashed"
    (by decide) rfl (by decide)
  rw [h.1]

/-- C7: the settle-and-restore stage retries the promote-and-check pair at
most 15 times with one one-second sleep per failed check; exhausting the
bound returns normally with failure recorded (no exception, so the workflow
is never aborted), and a successful check at attempt j stops the loop
there. -/
theorem startup_config_retry_bounded (outs : Nat → String) :
    (create_startup_config outs).1 ≤ 15
  ∧ ((∀ i, i < 15 → containsSub cscMarker (outs i) = true) →
      create_startup_config outs = (15, false))
  ∧ (∀ j, j < 15 → (∀ i, i < j → containsSub cscMarker (outs i) = true) →
      containsSub cscMarker (outs j) = false →
      create_startup_config outs = (j, true)) := by
  refine ⟨?_, fun h => ?_, fun j hj hall hj0 => ?_⟩
  · have h := cscGo_fst_le outs 15 0
    simpa [create_startup_config] using h
  · have h2 := cscGo_exhaust outs 15 0 (fun i h1 h2 => h i (by omega))
    simpa [create_startup_config] using h2
  · have h2 := cscGo_hit outs 15 0 j hj (fun i h1 h2 => hall i (by omega))
      (by simpa using hj0)
    simpa [create_startup_config] using h2

/-- C7 witness: permanent absence of a startup config exhausts all 15
attempts and returns normally; an immediate success stops at attempt 0. -/
theorem startup_config_retry_bounded_witness :
    create_startup_config (fun _ => cscMarker) = (15, false)
  ∧ create_startup_config (fun _ => "Current configuration:") = (0, true) :=
  ⟨(startup_config_retry_bounded (fun _ => cscMarker)).2.1 (fun i _ => by decide),
   (startup_config_retry_bounded (fun _ => "Current configuration:")).2.2 0
     (by decide) (fun i h => absurd h (Nat.not_lt_zero i)) (by decide)⟩

/-- C8 counterexample: with no identity file but configured options (the
password/interactive mode used by the openswitch shells) the built SSH
command still contains the option flags, so the claim that both flag groups
are omitted together fails; the claim-following builder differs from the
source builder at this input. -/
theorem connect_command_cex :
    ssh_get_connect_command "root" "10.0.0.1" 22
        ["BatchMode=no", "StrictHostKeyChecking=no"] none
      = "ssh root@10.0.0.1 -p 22 -o BatchMode=no -o StrictHostKeyChecking=no"
  ∧ ssh_connect_command_claimed "root" "10.0.0.1" 22
        ["BatchMode=no", "StrictHostKeyChecking=no"] none
      = "ssh root@10.0.0.1 -p 22"
  ∧ ssh_get_connect_command "root" "10.0.0.1" 22
        ["BatchMode=no", "StrictHostKeyChecking=no"] none
      ≠ ssh_connect_command_claimed "root" "10.0.0.1" 22
          ["BatchMode=no", "StrictHostKeyChecking=no"] none := by
  refine ⟨by decide, by decide, by decide⟩

/-- C8 amended: the builder is a pure mapping in which the identity-file
flag appears exactly when an identity file is configured while the option
flags depend only on whether options are configured (they are present even
in password/interactive mode); the Telnet form is host and port only. -/
theorem connect_command_amended (user hostname : String) (port : Nat)
    (options : List String) :
    ssh_get_connect_command user hostname port options none
      = "ssh " ++ user ++ "@" ++ hostname ++ " -p " ++ toString port
          ++ sshOptFlags options
  ∧ (∀ f : String, f ≠ "" →
      ssh_get_connect_command user hostname port options (some f)
        = "ssh " ++ user ++ "@" ++ hostname ++ " -p " ++ toString port
            ++ " -i " ++ f ++ sshOptFlags options)
  ∧ telnet_get_connect_command hostname port
      = "telnet " ++ hostname ++ " " ++ toString port := by
  refine ⟨?_, fun f hf => ?_, rfl⟩
  · simp [ssh_get_connect_command, pyTruthyStr]
  · simp [ssh_get_connect_command, pyTruthyStr, hf, String.append_assoc]

/-- C8 amended witness: password mode keeps options; key mode adds the
identity flag in front of them. -/
theorem connect_command_amended_witness :
    ssh_get_connect_command "root" "h" 2222 ["BatchMode=no"] (some "/k")
      = "ssh " ++ "root" ++ "@" ++ "h" ++ " -p " ++ toString 2222
          ++ " -i " ++ "/k" ++ sshOptFlags ["BatchMode=no"] :=
  (connect_command_amended "root" "h" 2222 ["BatchMode=no"]).2.1 "/k" (by decide)

/-- C10: for a live serial session with a non-empty list of closing
commands, `disconnect` raises `NameError` from the closing-command helper
(which references the unbound name `spawn`): no closing command is sent and
the underlying channel is not closed by the call. -/
theorem serial_disconnect_name_error (cmds : List String) (h : cmds ≠ []) :
    serial_disconnect true cmds = ([], some (PyError.nameError "spawn")) := by
  cases cmds with
  | nil => exact absurd rfl h
  | cons c rest => rfl

/-- C10 witness: a single configured closing command. -/
theorem serial_disconnect_name_error_witness :
    serial_disconnect true ["exit"] = ([], some (PyError.nameError "spawn")) :=
  serial_disconnect_name_error ["exit"] (by decide)

end TopologyConnect
